import Mathlib

/-!
Verification development for the anchor policy-compliance engine.

The development shallowly embeds the rule compiler and the verification
engine of the repository:

* the condition parser and rule compiler
  (`src/tests/rule_compiler_implementation.py`, class `RuleCompiler`);
* the verifier (`src/app/services/verification.py`,
  `VerificationService.verify_scenario` / `compile_and_verify`);
* the variable resolver
  (`src/app/services/variable_extractor.py`,
  `VariableExtractorService._apply_default_values`).

Z3 is embedded as a deep syntax of sorts, terms and boolean expressions
with a model-based satisfiability semantics; the external solver call is
an oracle parameter `List ZExpr → SolverAnswer` so that theorems can be
stated for any solver behaviour and instantiated at concrete answers.
-/

namespace Anchor

/-- Z3 sorts used by the compiler: `Int`, `Real`, `Bool` and the string sort. -/
inductive ZSort where
  | int
  | real
  | bool
  | str
deriving DecidableEq, Repr

/-- Z3 ground values (the results `IntVal`, `RealVal`, `BoolVal`, `StringVal`).
Python floats are modelled as rationals; no claim depends on floating-point
rounding. -/
inductive Z3Val where
  | vint (n : Int)
  | vreal (q : ℚ)
  | vstr (s : String)
  | vbool (b : Bool)
deriving DecidableEq, Repr

/-- The sort of a ground value. -/
def Z3Val.zsort : Z3Val → ZSort
  | .vint _ => .int
  | .vreal _ => .real
  | .vstr _ => .str
  | .vbool _ => .bool

/-- Operands of a comparison: a typed solver symbol or a literal
(`RuleCompiler._get_z3_expression` produces exactly these). -/
inductive Term where
  | var (name : String) (s : ZSort)
  | intLit (n : Int)
  | realLit (q : ℚ)
  | strLit (s : String)
  | boolLit (b : Bool)
deriving DecidableEq, Repr

/-- The sort of a term. -/
def Term.zsort : Term → ZSort
  | .var _ s => s
  | .intLit _ => .int
  | .realLit _ => .real
  | .strLit _ => .str
  | .boolLit _ => .bool

/-- Comparison operators, in the order the source scans them:
`['>=', '<=', '!=', '==', '>', '<']`. -/
inductive CmpOp where
  | ge
  | le
  | ne
  | eq
  | gt
  | lt
deriving DecidableEq, Repr

/-- Z3 boolean expressions as built by `RuleCompiler._parse_condition`:
comparisons, `And([...])`, `Or([...])` and `Not(...)`. -/
inductive ZExpr where
  | cmp (op : CmpOp) (l r : Term)
  | zand (es : List ZExpr)
  | zor (es : List ZExpr)
  | znot (e : ZExpr)
deriving Repr

mutual

/-- Decidable equality on expressions (the nested `List` blocks automatic
derivation). -/
def ZExpr.decEq : (a b : ZExpr) → Decidable (a = b)
  | .cmp o1 l1 r1, .cmp o2 l2 r2 =>
    if h : o1 = o2 ∧ l1 = l2 ∧ r1 = r2 then
      isTrue (by rw [h.1, h.2.1, h.2.2])
    else
      isFalse (fun he => h (by injection he with h1 h2 h3; exact ⟨h1, h2, h3⟩))
  | .zand es1, .zand es2 =>
    match ZExpr.decEqList es1 es2 with
    | isTrue h => isTrue (by rw [h])
    | isFalse h => isFalse (fun he => h (by injection he))
  | .zor es1, .zor es2 =>
    match ZExpr.decEqList es1 es2 with
    | isTrue h => isTrue (by rw [h])
    | isFalse h => isFalse (fun he => h (by injection he))
  | .znot e1, .znot e2 =>
    match ZExpr.decEq e1 e2 with
    | isTrue h => isTrue (by rw [h])
    | isFalse h => isFalse (fun he => h (by injection he))
  | .cmp _ _ _, .zand _ => isFalse (fun h => ZExpr.noConfusion h)
  | .cmp _ _ _, .zor _ => isFalse (fun h => ZExpr.noConfusion h)
  | .cmp _ _ _, .znot _ => isFalse (fun h => ZExpr.noConfusion h)
  | .zand _, .cmp _ _ _ => isFalse (fun h => ZExpr.noConfusion h)
  | .zand _, .zor _ => isFalse (fun h => ZExpr.noConfusion h)
  | .zand _, .znot _ => isFalse (fun h => ZExpr.noConfusion h)
  | .zor _, .cmp _ _ _ => isFalse (fun h => ZExpr.noConfusion h)
  | .zor _, .zand _ => isFalse (fun h => ZExpr.noConfusion h)
  | .zor _, .znot _ => isFalse (fun h => ZExpr.noConfusion h)
  | .znot _, .cmp _ _ _ => isFalse (fun h => ZExpr.noConfusion h)
  | .znot _, .zand _ => isFalse (fun h => ZExpr.noConfusion h)
  | .znot _, .zor _ => isFalse (fun h => ZExpr.noConfusion h)

/-- Decidable equality on lists of expressions. -/
def ZExpr.decEqList : (a b : List ZExpr) → Decidable (a = b)
  | [], [] => isTrue rfl
  | [], _ :: _ => isFalse (fun h => List.noConfusion h)
  | _ :: _, [] => isFalse (fun h => List.noConfusion h)
  | a :: as1, b :: bs1 =>
    match ZExpr.decEq a b, ZExpr.decEqList as1 bs1 with
    | isTrue h1, isTrue h2 => isTrue (by rw [h1, h2])
    | isFalse h1, _ => isFalse (fun he => h1 (by injection he))
    | _, isFalse h2 => isFalse (fun he => h2 (by injection he))

end

instance : DecidableEq ZExpr := ZExpr.decEq

/-! ## String helpers mirroring the Python string operations -/

/-- Python `str.strip()`: remove leading and trailing whitespace. -/
def strip (s : List Char) : List Char :=
  ((s.dropWhile Char.isWhitespace).reverse.dropWhile Char.isWhitespace).reverse

/-- Python substring test `sep in s` (for nonempty `sep`). -/
def containsSub (sep : List Char) : List Char → Bool
  | [] => sep.isEmpty
  | c :: rest => sep.isPrefixOf (c :: rest) || containsSub sep rest

/-- Python `s.split(sep)` (all occurrences, leftmost, non-overlapping),
written with explicit fuel so that it is structurally recursive; `fuel`
at least `s.length` always suffices. -/
def splitAllAux (sep : List Char) : Nat → List Char → List Char → List (List Char)
  | _, [], acc => [acc.reverse]
  | 0, s, acc => [acc.reverse ++ s]
  | fuel + 1, c :: rest, acc =>
    if sep.isPrefixOf (c :: rest) then
      acc.reverse :: splitAllAux sep fuel (rest.drop (sep.length - 1)) []
    else
      splitAllAux sep fuel rest (c :: acc)

/-- Python `s.split(sep)`. -/
def splitAll (sep s : List Char) : List (List Char) :=
  splitAllAux sep s.length s []

/-- Python `s.split(sep, 1)` when `sep` occurs: the part before the first
occurrence and the part after it. Returns `none` when `sep` does not occur. -/
def splitFirst (sep : List Char) : List Char → Option (List Char × List Char)
  | [] => none
  | c :: rest =>
    if sep.isPrefixOf (c :: rest) then
      some ([], (c :: rest).drop sep.length)
    else
      (splitFirst sep rest).map (fun p => (c :: p.1, p.2))

/-- Python `int(s)` on an already-stripped string: optional sign followed by
at least one digit (underscore grouping is not modelled; no condition in the
repository uses it). Returns `none` where Python raises `ValueError`. -/
def intParse (s : List Char) : Option Int :=
  let core : List Char → Option Int := fun ds =>
    if ds ≠ [] && ds.all Char.isDigit then
      some (ds.foldl (fun acc c => acc * 10 + (c.toNat - '0'.toNat : Int)) 0)
    else
      none
  match s with
  | '-' :: rest => (core rest).map Int.neg
  | '+' :: rest => core rest
  | _ => core s

/-- Digits of a decimal fraction read as `ℚ` (helper for `floatParse`). -/
def fracVal (ds : List Char) : ℚ :=
  ds.foldr (fun c acc => ((c.toNat - '0'.toNat : ℚ) + acc) / 10) 0

/-- Python `float(s)` restricted to the shapes reachable from the parser
(the parser only calls it when `s` contains a decimal point):
optional sign, digits, a point, digits, optional exponent. Returns `none`
where Python raises `ValueError`. -/
def floatParse (s : List Char) : Option ℚ :=
  let digitsVal : List Char → ℚ := fun ds =>
    ds.foldl (fun acc c => acc * 10 + (c.toNat - '0'.toNat : ℚ)) 0
  let mantissa : List Char → Option ℚ := fun t =>
    let ip := t.takeWhile Char.isDigit
    match t.drop ip.length with
    | '.' :: rest =>
      let fp := rest.takeWhile Char.isDigit
      let tail := rest.drop fp.length
      if ip.isEmpty && fp.isEmpty then none
      else
        let base := digitsVal ip + fracVal fp
        match tail with
        | [] => some base
        | e :: etail =>
          if e = 'e' || e = 'E' then
            let (sign, ds) :=
              match etail with
              | '-' :: r => ((-1 : Int), r)
              | '+' :: r => ((1 : Int), r)
              | r => ((1 : Int), r)
            if ds ≠ [] && ds.all Char.isDigit then
              match intParse ds with
              | some k => some (base * 10 ^ (sign * k))
              | none => none
            else none
          else none
    | _ => none
  match s with
  | '-' :: rest => (mantissa rest).map Neg.neg
  | '+' :: rest => mantissa rest
  | _ => mantissa s

/-- Python `s.lower()` (ASCII case folding suffices for the keywords used). -/
def toLowerChars (s : List Char) : List Char :=
  s.map Char.toLower

/-! ## The condition parser

Faithful embedding of `RuleCompiler._parse_condition`,
`_parse_or_condition`, `_parse_and_condition`, `_parse_atomic_condition`
and `_get_z3_expression` from `src/tests/rule_compiler_implementation.py`.
The Python code special-cases `" OR "` before `" AND "` by naive string
splitting and recurses on the pieces; `ValueError` is modelled as
`Except.error`. -/

/-- The separator `" OR "`. -/
def orSep : List Char := [' ', 'O', 'R', ' ']

/-- The separator `" AND "`. -/
def andSep : List Char := [' ', 'A', 'N', 'D', ' ']

/-- `RuleCompiler._get_z3_expression`: strip, unquote string literals,
try numeric literals (`Real` when a point is present, else `Int`),
then case-insensitive booleans, then look the name up among the policy's
Z3 variables. -/
def getZ3Expression (vars : List (String × ZSort)) (e0 : List Char) : Except String Term :=
  let e := strip e0
  if e.head? = some '"' ∧ e.getLast? = some '"' then
    .ok (.strLit ⟨(e.drop 1).dropLast⟩)
  else if e.head? = some '\'' ∧ e.getLast? = some '\'' then
    .ok (.strLit ⟨(e.drop 1).dropLast⟩)
  else
    let fallback : Except String Term :=
      if toLowerChars e = "true".data then
        .ok (.boolLit true)
      else if toLowerChars e = "false".data then
        .ok (.boolLit false)
      else
        match List.lookup (⟨e⟩ : String) vars with
        | some srt => .ok (.var ⟨e⟩ srt)
        | none => .error ("Unknown variable: " ++ ⟨e⟩)
    if e.contains '.' then
      match floatParse e with
      | some q => .ok (.realLit q)
      | none => fallback
    else
      match intParse e with
      | some n => .ok (.intLit n)
      | none => fallback

/-- Whether two operand sorts may be compared with `==` / `!=` without a Z3
sort-mismatch exception: equal sorts, or the `Int`/`Real` arithmetic
coercion. -/
def eqCompatible (a b : ZSort) : Bool :=
  a = b || (a = .int && b = .real) || (a = .real && b = .int)

/-- Whether a sort is numeric. -/
def numericSort (a : ZSort) : Bool :=
  a = .int || a = .real

/-- Whether two operand sorts may be compared with an order operator:
numeric against numeric (with coercion) or string against string
(Z3's `str.<` family); anything else raises a sort mismatch. -/
def ordCompatible (a b : ZSort) : Bool :=
  (numericSort a && numericSort b) || (a = .str && b = .str)

/-- Build one comparison, raising the Z3 sort-mismatch error exactly when
Z3's expression constructors would. -/
def mkCmp (op : CmpOp) (l r : Term) : Except String ZExpr :=
  match op with
  | .eq | .ne =>
    if eqCompatible l.zsort r.zsort then .ok (.cmp op l r)
    else .error "sort mismatch"
  | _ =>
    if ordCompatible l.zsort r.zsort then .ok (.cmp op l r)
    else .error "sort mismatch"

/-- The operator scan order of `_parse_atomic_condition`:
`['>=', '<=', '!=', '==', '>', '<']`. -/
def operatorList : List (List Char × CmpOp) :=
  [(['>', '='], .ge), (['<', '='], .le), (['!', '='], .ne),
   (['=', '='], .eq), (['>'], .gt), (['<'], .lt)]

/-- Find the first operator of `operatorList` occurring in the condition and
split at its first occurrence (Python `op in condition` followed by
`condition.split(op, 1)`). -/
def findOperator (c : List Char) : Option (CmpOp × List Char × List Char) :=
  operatorList.foldr
    (fun (p : List Char × CmpOp) acc =>
      match splitFirst p.1 c with
      | some (l, r) => some (p.2, l, r)
      | none => acc)
    none

/-- `RuleCompiler._parse_condition` (with `_parse_or_condition`,
`_parse_and_condition` and `_parse_atomic_condition` inlined), written with
explicit fuel; every recursive call is on a strictly shorter string, so
`fuel = s.length + 1` always suffices. -/
def parseCondition (vars : List (String × ZSort)) : Nat → List Char → Except String ZExpr
  | 0, _ => .error "recursion limit"
  | fuel + 1, s0 =>
    let c := strip s0
    if containsSub orSep c then
      ((splitAll orSep c).mapM (parseCondition vars fuel)).map ZExpr.zor
    else if containsSub andSep c then
      ((splitAll andSep c).mapM (parseCondition vars fuel)).map ZExpr.zand
    else if ('N' :: 'O' :: 'T' :: ' ' :: []).isPrefixOf c then
      (parseCondition vars fuel (strip (c.drop 4))).map ZExpr.znot
    else if c.head? = some '(' ∧ c.getLast? = some ')' then
      parseCondition vars fuel ((c.drop 1).dropLast)
    else
      match findOperator c with
      | some (op, l, r) => do
        let lt ← getZ3Expression vars (strip l)
        let rt ← getZ3Expression vars (strip r)
        mkCmp op lt rt
      | none => .error ("Could not parse atomic condition: " ++ ⟨c⟩)

/-- Entry point for parsing one condition string. -/
def parseConditionStr (vars : List (String × ZSort)) (s : String) : Except String ZExpr :=
  parseCondition vars (s.data.length + 1) s.data

/-! ## Policy data model

The dictionaries flowing through `compile_policy` / `verify_scenario`,
after the YAML/JSON plumbing (out of scope) has parsed them. -/

/-- A Python value as it appears in an extracted-variable map or a policy
field: `None`, a string, an int, a float (as `ℚ`) or a bool. -/
inductive PyVal where
  | none
  | str (s : String)
  | int (n : Int)
  | real (q : ℚ)
  | bool (b : Bool)
deriving DecidableEq, Repr

/-- The sentinel for a mandatory variable that could not be resolved
(`variable_extractor.py`). -/
def MISSING_MANDATORY : PyVal := .str "MISSING_MANDATORY"

/-- The sentinel for an optional variable that could not be resolved
(`variable_extractor.py`). -/
def SKIP_RULE : PyVal := .str "SKIP_RULE"

/-- One variable declaration of a policy. `is_mandatory` is `none` when the
declaration omits the field (`policy_var.get('is_mandatory', True)` reads it
with default `True`); `default_value` is `none` when absent. -/
structure PolicyVar where
  name : String
  type : String
  description : String := ""
  possible_values : List String := []
  is_mandatory : Option Bool := none
  default_value : Option String := none
deriving DecidableEq, Repr

/-- One rule of a policy. -/
structure PolicyRule where
  id : String
  condition : String
  conclusion : String
  description : String := ""
deriving DecidableEq, Repr

/-- A policy definition (variables, rules, global constraint strings). -/
structure Policy where
  vars : List PolicyVar  -- source field name: variables (a reserved word here)
  rules : List PolicyRule
  constraints : List String := []
deriving DecidableEq, Repr

/-! ## The policy compiler

`RuleCompiler.compile_policy`. The repository's deployed compiler module
`app/services/rule_compiler.py` is not among the sources; the copies under
`src/tests/` provide `_create_z3_variables`, `_parse_condition` and the
atomic/operand handling verbatim, and the callers in
`app/services/verification.py` (which read `conclusion` and
`original_rule` from each compiled rule) together with spec §4.2 fix the
shape of the compiled-rule records. -/

/-- The Z3 sort allocated for a declared variable type
(`_create_z3_variables`): `string`/`enum` → string sort, `number`/`date` →
integer sort, `boolean` → boolean sort; an unknown type string allocates
no symbol at all. -/
def varSort? (t : String) : Option ZSort :=
  if t = "string" then some .str
  else if t = "number" then some .int
  else if t = "boolean" then some .bool
  else if t = "date" then some .int
  else if t = "enum" then some .str
  else none

/-- The map of variable name to typed solver symbol built by
`_create_z3_variables`. -/
def policyZ3Vars (vs : List PolicyVar) : List (String × ZSort) :=
  vs.filterMap (fun v => (varSort? v.type).map (fun s => (v.name, s)))

/-- The enum domain constraints `Or([symbol == v for v in possible_values])`
that `_create_z3_variables` builds for each enum variable. The source
appends them to the compiler's internal `self.constraints` list, which
`compile_policy` never includes in its returned dictionary. -/
def enumDomainConstraints (vs : List PolicyVar) : List ZExpr :=
  vs.filterMap (fun v =>
    if v.type = "enum" then
      some (.zor (v.possible_values.map
        (fun pv => .cmp .eq (.var v.name .str) (.strLit pv))))
    else
      Option.none)

/-- A compiled rule: the dictionary `verify_scenario` consumes, with the
formula under `constraint`, the rule's `conclusion`, and the original rule
retained under `original_rule` (used by `_rule_depends_on_variables`). -/
structure CompiledRule where
  id : String
  formula : ZExpr
  conclusion : String
  description : String
  original_rule : PolicyRule
deriving DecidableEq, Repr

/-- The dictionary returned by `compile_policy`: the variable symbols, the
compiled rules, and the compiled global constraints (only the policy's
`constraints` entries; the enum domain constraints are dropped, see
`enumDomainConstraints`). -/
structure CompiledPolicy where
  vars : List (String × ZSort)  -- source key: variables (a reserved word here)
  rules : List CompiledRule
  constraints : List ZExpr
deriving DecidableEq, Repr

/-- Modelled from the spec: `RuleCompiler._compile_rule` of the deployed
compiler module `app/services/rule_compiler.py`, which is absent from the
sources. Per spec §4.2 the rule's condition is parsed to a formula `F` and
stored as the rule's support formula for both conclusions — `invalid` is
not pre-negated; negation is applied only operationally inside the
verifier — and any other conclusion is rejected. The compiled record keeps
`conclusion` and `original_rule`, which `verify_scenario` reads. -/
def compileRule (vars : List (String × ZSort)) (r : PolicyRule) :
    Except String CompiledRule :=
  match parseConditionStr vars r.condition with
  | .error e => .error e
  | .ok f =>
    if r.conclusion = "valid" ∨ r.conclusion = "invalid" then
      .ok { id := r.id, formula := f, conclusion := r.conclusion,
            description := r.description, original_rule := r }
    else
      .error ("Invalid conclusion: " ++ r.conclusion ++ ". Use 'valid' or 'invalid'")

/-- `RuleCompiler.compile_policy`: create the typed symbols, compile each
rule, compile the listed global constraints. Any exception while compiling
fails the whole compilation. -/
def compilePolicy (p : Policy) : Except String CompiledPolicy :=
  match p.rules.mapM (compileRule (policyZ3Vars p.vars)) with
  | .error e => .error e
  | .ok rules =>
    match p.constraints.mapM (parseConditionStr (policyZ3Vars p.vars)) with
    | .error e => .error e
    | .ok constraints =>
      .ok { vars := policyZ3Vars p.vars, rules := rules, constraints := constraints }

/-! ## Word search and rule dependency

`VerificationService._rule_depends_on_variables` decides at verification
time whether a rule depends on a skipped variable by a whole-word regex
search (`re.search(r'\b' + re.escape(var_name) + r'\b', rule_text)`) over
the rule's original condition and description. -/

/-- Regex word characters `\w`: letters, digits and underscore. -/
def isWordChar (c : Char) : Bool :=
  c.isAlphanum || c = '_'

/-- Word-character test lifted to an optional character; the ends of the
text count as non-word. -/
def wordOpt : Option Char → Bool
  | Option.none => false
  | some c => isWordChar c

/-- A `\b` boundary between two (optional) neighbouring characters: exactly
one side is a word character. -/
def wordBoundary (a b : Option Char) : Bool :=
  wordOpt a != wordOpt b

/-- Whether `name` matches at offset `i` of `text` with `\b` on both sides. -/
def matchesWordAt (name text : List Char) (i : Nat) : Bool :=
  ((text.drop i).take name.length = name) &&
  wordBoundary (text.take i).getLast? name.head? &&
  wordBoundary name.getLast? ((text.drop (i + name.length)).head?)

/-- `re.search(r'\b name \b', text)`: some offset matches. -/
def wordSearch (name text : List Char) : Bool :=
  (List.range (text.length + 1)).any (matchesWordAt name text)

/-- `VerificationService._rule_depends_on_variables`: false for an empty
variable list; otherwise search each variable name as a whole word in
`condition + " " + description` of the rule's original rule. -/
def ruleDependsOnVariables (cr : CompiledRule) (variable_names : List String) : Bool :=
  if variable_names.isEmpty then
    false
  else
    let rule_text := cr.original_rule.condition.data ++ ' ' ::
      cr.original_rule.description.data
    variable_names.any (fun n => wordSearch n.data rule_text)

/-- `referenced_variables` as spec §3 defines it for a `CompiledRule`: the
set of declared variable names appearing (as whole words) in the raw
condition. The source has no such compile-time field; this definition is
the spec's notion, used to state the skip invariant. -/
def referencedVariables (varNames : List String) (cr : CompiledRule) : List String :=
  varNames.filter (fun n => wordSearch n.data cr.original_rule.condition.data)

/-! ## The verifier

`VerificationService.verify_scenario`. The extracted-variable map is an
association list in dictionary (insertion) order; the Z3 `Solver` is
abstracted by an oracle giving the answer of `solver.check()` for the
asserted constraint list, with `err` standing for a Z3 exception raised
while asserting. -/

/-- The answer of one solver session: `check() == sat`, anything else
(`unsat`/`unknown`), or a Z3 exception with its message. -/
inductive SolverAnswer where
  | sat
  | unsat
  | err (msg : String)
deriving DecidableEq, Repr

/-- The external solver as an oracle from asserted constraints to answers. -/
abbrev Oracle : Type := List ZExpr → SolverAnswer

/-- An extracted-variable map (name to value, in insertion order). -/
abbrev Facts : Type := List (String × PyVal)

/-- The per-rule classification values appearing under `result` in
`rule_results`. -/
inductive RuleStatus where
  | pass
  | fail
  | not_applicable
  | skipped
deriving DecidableEq, Repr

/-- One entry of `rule_results`. -/
structure RuleResult where
  rule_id : String
  status : RuleStatus
  description : String
  reason : String
deriving DecidableEq, Repr

/-- Overall verification result (`VerificationResult` in `schemas.py`). -/
inductive VResult where
  | valid
  | invalid
  | needs_clarification
  | error
deriving DecidableEq, Repr

/-- The dictionary `verify_scenario` returns. `queries` is instrumentation
recording every constraint list on which the solver was invoked (it is not
a key of the returned dictionary); `missing_mandatory_vars` is `[]` on the
paths where the source omits the key. -/
structure VerifyOutput where
  result : VResult
  rule_results : List RuleResult
  failed_rules : List String
  missing_mandatory_vars : List String
  queries : List (List ZExpr)
deriving DecidableEq, Repr

/-- The names mapped to `MISSING_MANDATORY`, in map order (the mandatory
gate's comprehension). -/
def missingMandatory (facts : Facts) : List String :=
  (facts.filter (fun p => p.2 = MISSING_MANDATORY)).map (fun p => p.1)

/-- The names mapped to `SKIP_RULE`, in map order (`skipped_variables`). -/
def skippedVariables (facts : Facts) : List String :=
  (facts.filter (fun p => p.2 = SKIP_RULE)).map (fun p => p.1)

/-- `effective_variables`: the entries that are neither sentinel nor
`None`. -/
def effectiveVariables (facts : Facts) : Facts :=
  facts.filter (fun p =>
    p.2 ≠ SKIP_RULE ∧ p.2 ≠ MISSING_MANDATORY ∧ p.2 ≠ PyVal.none)

/-- The equality constraint asserted for one effective variable, if any:
variables not among the policy's symbols are skipped (`if var_name in
z3_vars`), and a value whose Z3 literal cannot be equated with the
symbol's sort raises inside the `try`, is caught, and the variable is
skipped. -/
def assignConstraint (vars : List (String × ZSort)) (name : String) (v : PyVal) :
    Option ZExpr :=
  match List.lookup name vars with
  | Option.none => Option.none
  | some srt =>
    match v with
    | .str s => if srt = .str then some (.cmp .eq (.var name srt) (.strLit s)) else Option.none
    | .bool b => if srt = .bool then some (.cmp .eq (.var name srt) (.boolLit b)) else Option.none
    | .int n => if numericSort srt then some (.cmp .eq (.var name srt) (.intLit n)) else Option.none
    | .real q => if numericSort srt then some (.cmp .eq (.var name srt) (.realLit q)) else Option.none
    | .none => Option.none

/-- All equality constraints asserted for the effective variables. -/
def assignmentConstraints (vars : List (String × ZSort)) (facts : Facts) : List ZExpr :=
  (effectiveVariables facts).filterMap (fun p => assignConstraint vars p.1 p.2)

/-- The constraint list asserted for one rule's satisfiability check: the
global constraints, the variable assignments, and the rule's formula. -/
def ruleQuery (constraints assigns : List ZExpr) (cr : CompiledRule) : List ZExpr :=
  constraints ++ assigns ++ [cr.formula]

/-- Classify one rule (the body of the rule loop): skip it if it depends on
a skipped variable (no solver call); otherwise assert the rule's formula on
top of the global constraints and variable assignments and check
satisfiability. `sat` classifies by conclusion; anything else is
not-applicable; a Z3 error whose message mentions a sort mismatch skips
just this rule, and any other Z3 error is re-raised. Returns the
`rule_results` entry (if one is appended) and the queries issued. -/
def evalRule (s : Oracle) (constraints assigns : List ZExpr)
    (skippedVars : List String) (cr : CompiledRule) :
    Except String (Option RuleResult × List (List ZExpr)) :=
  if ruleDependsOnVariables cr skippedVars then
    .ok (some { rule_id := cr.id, status := .skipped, description := cr.description,
                reason := "Rule skipped due to unknown optional variables: " ++
                  String.intercalate ", " skippedVars }, [])
  else
    match s (ruleQuery constraints assigns cr) with
    | .sat =>
      if cr.conclusion = "valid" then
        .ok (some { rule_id := cr.id, status := .pass, description := cr.description,
                    reason := "Rule condition satisfied and supports validity" },
             [ruleQuery constraints assigns cr])
      else if cr.conclusion = "invalid" then
        .ok (some { rule_id := cr.id, status := .fail, description := cr.description,
                    reason := "Rule condition satisfied and indicates invalidity" },
             [ruleQuery constraints assigns cr])
      else
        .ok (Option.none, [ruleQuery constraints assigns cr])
    | .unsat =>
      .ok (some { rule_id := cr.id, status := .not_applicable, description := cr.description,
                  reason := "Rule condition not satisfied, rule does not apply" },
           [ruleQuery constraints assigns cr])
    | .err m =>
      if containsSub "sort mismatch".data (toLowerChars m.data) then
        .ok (some { rule_id := cr.id, status := .skipped, description := cr.description,
                    reason := "Rule skipped due to Z3 constraint error: " ++ m },
             [ruleQuery constraints assigns cr])
      else
        .error m

/-- The rule loop: classify each rule in list order, re-raising any
non-sort-mismatch Z3 error (which aborts the loop). -/
def evalRules (s : Oracle) (constraints assigns : List ZExpr)
    (skippedVars : List String) :
    List CompiledRule → Except String (List RuleResult × List (List ZExpr))
  | [] => .ok ([], [])
  | cr :: rest =>
    match evalRule s constraints assigns skippedVars cr with
    | .error e => .error e
    | .ok (r, qs) =>
      match evalRules s constraints assigns skippedVars rest with
      | .error e => .error e
      | .ok (rs, qss) => .ok (r.toList ++ rs, qs ++ qss)

/-- The output of the outer `except` handler (`result = ERROR`). -/
def errorOutput : VerifyOutput :=
  { result := .error, rule_results := [], failed_rules := [],
    missing_mandatory_vars := [], queries := [] }

/-- The mandatory-gate return: `needs_clarification` carrying the names of
all variables marked `MISSING_MANDATORY`; no rule evaluated, no solver
invoked. -/
def gateOutput (extracted : Facts) : VerifyOutput :=
  { result := .needs_clarification, rule_results := [], failed_rules := [],
    missing_mandatory_vars := missingMandatory extracted, queries := [] }

/-- The aggregation of the rule loop's outcome (`verify_scenario` lines
234-274): no effective variables → needs clarification; any violated rule →
invalid; any supporting rule → valid; only skipped rules → valid
(conservative default); otherwise needs clarification. The source
accumulates `violated_rules`, `supporting_rules` and `skipped_rules` in
lockstep with `rule_results`; here they are recovered from the statuses in
`rule_results`. -/
def aggOutput (effective : Facts) (results : List RuleResult)
    (qs : List (List ZExpr)) : VerifyOutput :=
  let failed := (results.filter (fun r => r.status = .fail)).map (fun r => r.rule_id)
  { result :=
      if effective.isEmpty then .needs_clarification
      else if failed.isEmpty = false then .invalid
      else if results.any (fun r => r.status = .pass) then .valid
      else if results.any (fun r => r.status = .skipped) then .valid
      else .needs_clarification,
    rule_results := results, failed_rules := failed,
    missing_mandatory_vars := [], queries := qs }

/-- The post-gate body of `verify_scenario` on the reconstructed policy:
run the rule loop and aggregate; a re-raised solver exception reaches the
outer handler. -/
def verifyWithCompiled (s : Oracle) (extracted : Facts) (cp : CompiledPolicy) :
    VerifyOutput :=
  match evalRules s cp.constraints (assignmentConstraints cp.vars extracted)
      (skippedVariables extracted) cp.rules with
  | .error _ => errorOutput
  | .ok (results, qs) => aggOutput (effectiveVariables extracted) results qs

/-- Reconstruction of the stored policy (`_reconstruct_z3_objects`
recompiles the original policy afresh); a compilation exception reaches the
outer handler. -/
def verifyReconstructed (s : Oracle) (extracted : Facts) :
    Except String CompiledPolicy → VerifyOutput
  | .error _ => errorOutput
  | .ok cp => verifyWithCompiled s extracted cp

/-- `VerificationService.verify_scenario`: the mandatory gate runs first
(before the stored policy is deserialized or any solver is created), then
the stored policy is reconstructed and the rule loop and aggregation run.
Any exception yields the error output. -/
def verifyScenario (s : Oracle) (extracted : Facts) (policy : Policy) : VerifyOutput :=
  if missingMandatory extracted ≠ [] then
    gateOutput extracted
  else
    verifyReconstructed s extracted (compilePolicy policy)

/-- `VerificationService.compile_and_verify`: compile the policy (any
compilation exception yields the error output), serialize it together with
the original policy, and call `verify_scenario`, which reconstructs the
compiled policy from the stored original. The pickle/base64 round trip is
the identity on the original policy. -/
def compileAndVerify (s : Oracle) (policy : Policy) (extracted : Facts) : VerifyOutput :=
  match compilePolicy policy with
  | .error _ => errorOutput
  | .ok _ => verifyScenario s extracted policy

/-! ## Satisfiability semantics

A model assigns a ground value to every symbol name; satisfiability of a
constraint list is the existence of a sort-respecting model making every
constraint true. This is the standard semantics the external solver
decides. -/

/-- A model: one ground value per symbol name. -/
abbrev ZModel : Type := String → Z3Val

/-- A model respects the declared sorts of the policy's symbols. -/
def WellSorted (vars : List (String × ZSort)) (m : ZModel) : Prop :=
  ∀ p ∈ vars, (m p.1).zsort = p.2

/-- Evaluate a term in a model. -/
def evalTerm (m : ZModel) : Term → Z3Val
  | .var n _ => m n
  | .intLit n => .vint n
  | .realLit q => .vreal q
  | .strLit s => .vstr s
  | .boolLit b => .vbool b

/-- The numeric content of a value, if any (`Int` coerces into `Real`). -/
def Z3Val.toQ : Z3Val → Option ℚ
  | .vint n => some (n : ℚ)
  | .vreal q => some q
  | _ => Option.none

/-- Semantic equality of two values: numeric values compare by their
rational content, strings and booleans by equality; values of incomparable
sorts are unequal. -/
def valEq : Z3Val → Z3Val → Bool
  | .vstr a, .vstr b => a = b
  | .vbool a, .vbool b => a = b
  | a, b =>
    match a.toQ, b.toQ with
    | some x, some y => x = y
    | _, _ => false

/-- Semantic strict order: numeric by rational content, strings
lexicographically (`str.<`); anything else is false. -/
def valLt : Z3Val → Z3Val → Bool
  | .vstr a, .vstr b => a < b
  | a, b =>
    match a.toQ, b.toQ with
    | some x, some y => x < y
    | _, _ => false

/-- Evaluate a comparison. -/
def evalCmp : CmpOp → Z3Val → Z3Val → Bool
  | .eq, a, b => valEq a b
  | .ne, a, b => !valEq a b
  | .lt, a, b => valLt a b
  | .gt, a, b => valLt b a
  | .le, a, b => valLt a b || valEq a b
  | .ge, a, b => valLt b a || valEq a b

mutual

/-- Evaluate an expression in a model. -/
def evalExpr (m : ZModel) : ZExpr → Bool
  | .cmp op l r => evalCmp op (evalTerm m l) (evalTerm m r)
  | .zand es => evalExprList m es
  | .zor es => evalExprAny m es
  | .znot e => !evalExpr m e

/-- Conjunction over a list of expressions (`And([...])`). -/
def evalExprList (m : ZModel) : List ZExpr → Bool
  | [] => true
  | e :: es => evalExpr m e && evalExprList m es

/-- Disjunction over a list of expressions (`Or([...])`). -/
def evalExprAny (m : ZModel) : List ZExpr → Bool
  | [] => false
  | e :: es => evalExpr m e || evalExprAny m es

end

/-- Satisfiability of a constraint list over the policy's typed symbols. -/
def Satisfiable (vars : List (String × ZSort)) (qs : List ZExpr) : Prop :=
  ∃ m : ZModel, WellSorted vars m ∧ ∀ e ∈ qs, evalExpr m e = true

/-! ## The variable resolver

`VariableExtractorService._apply_default_values`: produce one entry per
declared policy variable from the raw extraction. -/

/-- Coerce a declared default value by the declared type (`boolean` via
`str(default).lower() == 'true'`, `number` via `float`/`int` by decimal
point, anything else used as-is). Number parsing failures would raise in
the source; they return `0` here and are unreachable for well-formed
policies. -/
def coerceDefault (ty : String) (d : String) : PyVal :=
  if ty = "boolean" then
    .bool (toLowerChars d.data = "true".data)
  else if ty = "number" then
    if d.data.contains '.' then
      .real ((floatParse d.data).getD 0)
    else
      .int ((intParse d.data).getD 0)
  else
    .str d

/-- Resolve one declared variable (the loop body of
`_apply_default_values`): an extracted non-null value is kept; else a
declared default is coerced; else a mandatory variable (the `is_mandatory`
field read with default `True`) is marked `MISSING_MANDATORY`; else
`SKIP_RULE`. A key that is absent and a key explicitly set to `None` are
indistinguishable to `extracted_variables.get(var_name)`. -/
def resolveVar (extracted : Facts) (pv : PolicyVar) : String × PyVal :=
  let is_mandatory := pv.is_mandatory.getD true
  let extracted_value : Option PyVal :=
    match List.lookup pv.name extracted with
    | some PyVal.none => Option.none
    | some v => some v
    | Option.none => Option.none
  match extracted_value with
  | some v => (pv.name, v)
  | Option.none =>
    match pv.default_value with
    | some d => (pv.name, coerceDefault pv.type d)
    | Option.none =>
      if is_mandatory then
        (pv.name, MISSING_MANDATORY)
      else
        (pv.name, SKIP_RULE)

/-- `_apply_default_values`: one entry per declared policy variable, in
declaration order. -/
def applyDefaultValues (extracted : Facts) (policy_variables : List PolicyVar) : Facts :=
  policy_variables.map (resolveVar extracted)

/-! ## Derived notions used in the statements -/

/-- The symbol names occurring in a term. -/
def termVars : Term → List String
  | .var n _ => [n]
  | _ => []

mutual

/-- The symbol names occurring in an expression. -/
def exprVars : ZExpr → List String
  | .cmp _ l r => termVars l ++ termVars r
  | .zand es => exprVarsList es
  | .zor es => exprVarsList es
  | .znot e => exprVars e

/-- The symbol names occurring in a list of expressions. -/
def exprVarsList : List ZExpr → List String
  | [] => []
  | e :: es => exprVars e ++ exprVarsList es

end

/-- The Z3 literal a Python value is translated to when asserted
(`StringVal` / `IntVal` / `RealVal` / `BoolVal`); `None` has none. -/
def pyToZ3 : PyVal → Option Z3Val
  | .str s => some (.vstr s)
  | .int n => some (.vint n)
  | .real q => some (.vreal q)
  | .bool b => some (.vbool b)
  | .none => Option.none

/-- The literal term denoting a ground value. -/
def z3Lit : Z3Val → Term
  | .vint k => .intLit k
  | .vreal q => .realLit q
  | .vstr a => .strLit a
  | .vbool b => .boolLit b

/-- A default inhabitant of each sort (used to give the facts model a
value outside the assigned names). -/
def defaultVal : Option ZSort → Z3Val
  | some .int => .vint 0
  | some .real => .vreal 0
  | some .bool => .vbool false
  | some .str => .vstr ""
  | Option.none => .vint 0

/-- The model induced by a fact map: each name takes the Z3 translation of
its fact value, defaulting by declared sort elsewhere. -/
def factsModel (vars : List (String × ZSort)) (facts : Facts) : ZModel :=
  fun n =>
    match List.lookup n facts with
    | some v => (pyToZ3 v).getD (defaultVal (List.lookup n vars))
    | Option.none => defaultVal (List.lookup n vars)

/-- A fact map is a full assignment of real values: no sentinel and no
`None` anywhere. -/
def CleanFacts (facts : Facts) : Prop :=
  ∀ p ∈ facts, p.2 ≠ SKIP_RULE ∧ p.2 ≠ MISSING_MANDATORY ∧ p.2 ≠ PyVal.none

/-- Spec §4.4, Aggregate (transcribed from the spec's words, for comparison
with the code's aggregation): no resolved variable → needs clarification;
else any violated rule → invalid; else any supporting rule → valid; else at
least one skipped rule → valid; else needs clarification. -/
def specAggregate (effective : Facts) (results : List RuleResult) : VResult :=
  if effective.isEmpty then .needs_clarification
  else if results.any (fun r => r.status = .fail) then .invalid
  else if results.any (fun r => r.status = .pass) then .valid
  else if results.any (fun r => r.status = .skipped) then .valid
  else .needs_clarification

/-! ## Concrete scenario inputs -/

/-- Scenario 1's policy: the single rule `advance_notice_rule` over the
enum `request_type` and the number `advance_notice_days`. -/
def scenario1Policy : Policy :=
  { vars := [
      { name := "request_type", type := "enum",
        description := "Type of leave request",
        possible_values := ["regular_vacation", "emergency_leave"] },
      { name := "advance_notice_days", type := "number",
        description := "Days between request submission and vacation start" }],
    rules := [
      { id := "advance_notice_rule",
        condition := "request_type == 'regular_vacation' AND advance_notice_days < 14",
        conclusion := "invalid",
        description := "Regular vacation needs 2+ weeks advance notice" }] }

/-- Scenario 1's fact map. -/
def scenario1Facts : Facts :=
  [("request_type", .str "regular_vacation"), ("advance_notice_days", .int 5)]

/-- The one constraint list scenario 1 sends to the solver: the two
variable assignments followed by the rule's compiled condition. -/
def scenario1Query : List ZExpr :=
  [ .cmp .eq (.var "request_type" .str) (.strLit "regular_vacation"),
    .cmp .eq (.var "advance_notice_days" .int) (.intLit 5),
    .zand [
      .cmp .eq (.var "request_type" .str) (.strLit "regular_vacation"),
      .cmp .lt (.var "advance_notice_days" .int) (.intLit 14)] ]

/-- A model witnessing that scenario 1's constraint list is satisfiable. -/
def scenario1Model : ZModel :=
  fun n => if n = "request_type" then .vstr "regular_vacation" else .vint 5

/-- Scenario 5's policy: an enum variable `urgency_level` with declared
domain `low`/`high` and one rule over it. -/
def scenario5Policy : Policy :=
  { vars := [
      { name := "urgency_level", type := "enum",
        description := "How urgent is this request",
        possible_values := ["low", "high"] }],
    rules := [
      { id := "urgency_rule",
        condition := "urgency_level == 'high'",
        conclusion := "invalid",
        description := "High urgency requests are not allowed" }] }

/-- Scenario 5's fact map: a value outside the declared enum domain. -/
def scenario5Facts : Facts := [("urgency_level", .str "weird")]

/-- A policy with one optional number `x` and one rule over it (used for
the skip scenarios). -/
def skipPolicy : Policy :=
  { vars := [{ name := "x", type := "number", description := "a number" }],
    rules := [{ id := "backup_rule", condition := "x == 1",
                conclusion := "invalid", description := "x must not be one" }] }

/-- The compiled form of `scenario1Policy` (checked below against
`compilePolicy`). -/
def scenario1Compiled : CompiledPolicy :=
  { vars := [("request_type", .str), ("advance_notice_days", .int)],
    rules := [
      { id := "advance_notice_rule",
        formula := .zand [
          .cmp .eq (.var "request_type" .str) (.strLit "regular_vacation"),
          .cmp .lt (.var "advance_notice_days" .int) (.intLit 14)],
        conclusion := "invalid",
        description := "Regular vacation needs 2+ weeks advance notice",
        original_rule := {
          id := "advance_notice_rule",
          condition := "request_type == 'regular_vacation' AND advance_notice_days < 14",
          conclusion := "invalid",
          description := "Regular vacation needs 2+ weeks advance notice" } }],
    constraints := [] }

/-- The compiled form of `skipPolicy` (checked below against
`compilePolicy`). -/
def skipCompiled : CompiledPolicy :=
  { vars := [("x", .int)],
    rules := [
      { id := "backup_rule",
        formula := .cmp .eq (.var "x" .int) (.intLit 1),
        conclusion := "invalid",
        description := "x must not be one",
        original_rule := { id := "backup_rule", condition := "x == 1",
                           conclusion := "invalid",
                           description := "x must not be one" } }],
    constraints := [] }

/-! # Theorems -/

/-- Semantic equality of values is reflexive. -/
theorem valEq_refl (a : Z3Val) : valEq a a = true := by
  cases a <;> simp [valEq, Z3Val.toQ]

/-- Values of the same sort that are semantically equal are equal. -/
theorem valEq_eq_of_zsort_eq {a b : Z3Val} (hs : a.zsort = b.zsort)
    (h : valEq a b = true) : a = b := by
  cases a <;> cases b <;>
    simp_all [valEq, Z3Val.toQ, Z3Val.zsort]

/-! ## Claim C1 -/

/-- C1: for the policy whose single rule `advance_notice_rule` has
condition `request_type == 'regular_vacation' AND advance_notice_days < 14`
and conclusion `invalid`, and the fact map
`{request_type: "regular_vacation", advance_notice_days: 5}`,
`compile_and_verify` issues the one constraint list `scenario1Query`, which
is satisfiable, and for every solver answering `sat` on it the overall
result is `invalid` with `failed_rules = ["advance_notice_rule"]`. -/
theorem scenario1_invalid_with_violated_rule :
    Satisfiable (policyZ3Vars scenario1Policy.vars) scenario1Query ∧
    (∀ s : Oracle, s scenario1Query = .sat →
      (compileAndVerify s scenario1Policy scenario1Facts).result = .invalid ∧
      (compileAndVerify s scenario1Policy scenario1Facts).failed_rules =
        ["advance_notice_rule"] ∧
      (compileAndVerify s scenario1Policy scenario1Facts).queries =
        [scenario1Query]) := by
  constructor
  · exact ⟨scenario1Model, by unfold WellSorted; decide, by decide⟩
  · intro s hs
    have key : compileAndVerify s scenario1Policy scenario1Facts =
        compileAndVerify (fun _ => s scenario1Query) scenario1Policy scenario1Facts := rfl
    rw [key]
    simp only [hs]
    exact ⟨rfl, rfl, rfl⟩

/-- Witness for C1 at the solver that answers `sat`. -/
theorem scenario1_invalid_with_violated_rule_witness :
    ((fun _ => SolverAnswer.sat : Oracle) scenario1Query = .sat) ∧
    (compileAndVerify (fun _ => SolverAnswer.sat) scenario1Policy scenario1Facts).result
      = .invalid :=
  ⟨rfl, (scenario1_invalid_with_violated_rule.2 (fun _ => SolverAnswer.sat) rfl).1⟩

/-! ## Claim C2 -/

/-- C2 (failing input): the parser special-cases `" OR "` before `" AND "`
by naive splitting, so the parenthesized mixed condition
`(a == 1 OR b == 2) AND c == 3` does not compile to the formula
`(a == 1 ∨ b == 2) ∧ c == 3`; it splits into `"(a == 1"` and
`"b == 2) AND c == 3"` and fails on the unbalanced fragment with
`Unknown variable: (a`. -/
theorem mixed_parenthesized_condition_fails :
    parseConditionStr [("a", .int), ("b", .int), ("c", .int)]
      "(a == 1 OR b == 2) AND c == 3" = .error "Unknown variable: (a" := rfl

/-! ## Claim C5 -/

/-- C5: whenever at least one variable carries the `MISSING_MANDATORY`
marker, `verify_scenario` returns `needs_clarification` carrying the names
of all missing variables, with no rule evaluated and no solver invocation,
for every solver and every policy (the gate runs before the stored policy
is even deserialized). -/
theorem mandatory_gate_short_circuits (s : Oracle) (extracted : Facts)
    (policy : Policy) (h : missingMandatory extracted ≠ []) :
    verifyScenario s extracted policy =
      { result := .needs_clarification, rule_results := [], failed_rules := [],
        missing_mandatory_vars := missingMandatory extracted, queries := [] } := by
  unfold verifyScenario
  rw [if_pos h]
  rfl

/-- Witness for C5: the fact map `{employee_id ↦ MISSING_MANDATORY}`
against scenario 1's policy. -/
theorem mandatory_gate_short_circuits_witness :
    missingMandatory [("employee_id", MISSING_MANDATORY)] ≠ [] ∧
    verifyScenario (fun _ => SolverAnswer.sat)
        [("employee_id", MISSING_MANDATORY)] scenario1Policy =
      { result := .needs_clarification, rule_results := [], failed_rules := [],
        missing_mandatory_vars := ["employee_id"], queries := [] } :=
  ⟨by decide,
   mandatory_gate_short_circuits (fun _ => SolverAnswer.sat)
     [("employee_id", MISSING_MANDATORY)] scenario1Policy (by decide)⟩

/-! ## Claim C3 -/

/-- A successful association-list lookup comes from a member pair. -/
theorem mem_of_lookup {α β : Type} [BEq α] [LawfulBEq α] {k : α} {v : β} :
    ∀ {l : List (α × β)}, List.lookup k l = some v → (k, v) ∈ l
  | [], h => Option.noConfusion h
  | (a, b) :: es, h => by
    rw [List.lookup_cons] at h
    cases hk : k == a with
    | true =>
      rw [hk] at h
      injection h with h
      rw [← h, eq_of_beq hk]
      exact List.mem_cons_self _ _
    | false =>
      rw [hk] at h
      exact List.mem_cons_of_mem _ (mem_of_lookup h)

/-- With duplicate-free keys, membership determines the lookup result. -/
theorem lookup_of_mem_nodup {α β : Type} [BEq α] [LawfulBEq α] {k : α} {v : β} :
    ∀ {l : List (α × β)}, (l.map Prod.fst).Nodup → (k, v) ∈ l →
      List.lookup k l = some v
  | [], _, hm => absurd hm (List.not_mem_nil _)
  | (a, b) :: es, hnd, hm => by
    rw [List.lookup_cons]
    rcases List.mem_cons.1 hm with heq | htl
    · injection heq with h1 h2
      rw [h1, h2]
      simp
    · have hka : (k == a) = false := by
        rw [List.map_cons, List.nodup_cons] at hnd
        by_contra hc
        have hk : k = a := eq_of_beq (by
          cases hkk : k == a with
          | true => rfl
          | false => exact absurd hkk hc)
        have hmem : k ∈ es.map Prod.fst := List.mem_map_of_mem Prod.fst htl
        exact hnd.1 (hk ▸ hmem)
      rw [hka]
      exact lookup_of_mem_nodup (by
        rw [List.map_cons, List.nodup_cons] at hnd
        exact hnd.2) htl

/-- Term evaluation only depends on the model's values at the term's
variables. -/
theorem evalTerm_congr (m1 m2 : ZModel) (tm : Term)
    (h : ∀ n ∈ termVars tm, m1 n = m2 n) : evalTerm m1 tm = evalTerm m2 tm := by
  cases tm with
  | var n srt => exact h n (by simp [termVars])
  | intLit n => rfl
  | realLit q => rfl
  | strLit a => rfl
  | boolLit b => rfl

mutual

/-- Expression evaluation only depends on the model's values at the
expression's variables. -/
theorem evalExpr_congr (m1 m2 : ZModel) :
    ∀ e : ZExpr, (∀ n ∈ exprVars e, m1 n = m2 n) →
      evalExpr m1 e = evalExpr m2 e
  | .cmp op l r, h => by
    unfold evalExpr
    rw [evalTerm_congr m1 m2 l (fun n hn => h n (by simp [exprVars, hn])),
        evalTerm_congr m1 m2 r (fun n hn => h n (by simp [exprVars, hn]))]
  | .zand es, h => by
    unfold evalExpr
    exact evalExprList_congr m1 m2 es (fun n hn => h n (by simpa [exprVars] using hn))
  | .zor es, h => by
    unfold evalExpr
    exact evalExprAny_congr m1 m2 es (fun n hn => h n (by simpa [exprVars] using hn))
  | .znot e, h => by
    unfold evalExpr
    rw [evalExpr_congr m1 m2 e (fun n hn => h n (by simpa [exprVars] using hn))]

/-- Conjunction evaluation only depends on the listed variables. -/
theorem evalExprList_congr (m1 m2 : ZModel) :
    ∀ es : List ZExpr, (∀ n ∈ exprVarsList es, m1 n = m2 n) →
      evalExprList m1 es = evalExprList m2 es
  | [], _ => rfl
  | e :: es, h => by
    unfold evalExprList
    rw [evalExpr_congr m1 m2 e (fun n hn => h n (by simp [exprVarsList, hn])),
        evalExprList_congr m1 m2 es (fun n hn => h n (by simp [exprVarsList, hn]))]

/-- Disjunction evaluation only depends on the listed variables. -/
theorem evalExprAny_congr (m1 m2 : ZModel) :
    ∀ es : List ZExpr, (∀ n ∈ exprVarsList es, m1 n = m2 n) →
      evalExprAny m1 es = evalExprAny m2 es
  | [], _ => rfl
  | e :: es, h => by
    unfold evalExprAny
    rw [evalExpr_congr m1 m2 e (fun n hn => h n (by simp [exprVarsList, hn])),
        evalExprAny_congr m1 m2 es (fun n hn => h n (by simp [exprVarsList, hn]))]

end

/-- A clean fact value has a Z3 translation. -/
theorem pyToZ3_isSome_of_ne_none {v : PyVal} (h : v ≠ PyVal.none) :
    ∃ zv, pyToZ3 v = some zv := by
  cases v with
  | none => exact absurd rfl h
  | str a => exact ⟨.vstr a, rfl⟩
  | int n => exact ⟨.vint n, rfl⟩
  | real q => exact ⟨.vreal q, rfl⟩
  | bool b => exact ⟨.vbool b, rfl⟩

/-- The equality constraint asserted for an exactly-sorted fact value, and
its literal's evaluation. -/
theorem assignConstraint_of_sorted (vars : List (String × ZSort)) (n : String)
    {v : PyVal} {zv : Z3Val} (hz : pyToZ3 v = some zv)
    (hv : List.lookup n vars = some zv.zsort) :
    assignConstraint vars n v =
      some (.cmp .eq (.var n zv.zsort) (z3Lit zv)) := by
  cases v with
  | none => exact Option.noConfusion hz
  | str a =>
    injection hz with hz
    subst hz
    unfold assignConstraint
    rw [hv]
    rfl
  | int k =>
    injection hz with hz
    subst hz
    unfold assignConstraint
    rw [hv]
    rfl
  | real q =>
    injection hz with hz
    subst hz
    unfold assignConstraint
    rw [hv]
    rfl
  | bool b =>
    injection hz with hz
    subst hz
    unfold assignConstraint
    rw [hv]
    rfl

/-- Literal terms evaluate to their value. -/
theorem evalTerm_z3Lit (m : ZModel) (zv : Z3Val) : evalTerm m (z3Lit zv) = zv := by
  cases zv <;> rfl

/-- The facts model takes the Z3 translation of a looked-up fact value. -/
theorem factsModel_lookup (vars : List (String × ZSort)) (facts : Facts)
    (n : String) {v : PyVal} {zv : Z3Val}
    (hlf : List.lookup n facts = some v) (hz : pyToZ3 v = some zv) :
    factsModel vars facts n = zv := by
  unfold factsModel
  simp [hlf, hz]

/-- A clean fact map marks nothing for skipping. -/
theorem skippedVariables_of_clean {facts : Facts} (h : CleanFacts facts) :
    skippedVariables facts = [] := by
  unfold skippedVariables
  rw [List.filter_eq_nil_iff.2 (fun p hp => by simp [(h p hp).1])]
  rfl

/-- A clean fact map is wholly effective. -/
theorem effectiveVariables_of_clean {facts : Facts} (h : CleanFacts facts) :
    effectiveVariables facts = facts := by
  unfold effectiveVariables
  apply List.filter_eq_self.2
  intro p hp
  simpa using ⟨(h p hp).1, (h p hp).2.1, (h p hp).2.2⟩

/-- An asserted equality constraint is true in the facts model. -/
theorem assignConstraint_eval (vars : List (String × ZSort)) (facts : Facts)
    (n : String) (v : PyVal) (e : ZExpr)
    (hsome : assignConstraint vars n v = some e)
    (hlf : List.lookup n facts = some v) :
    evalExpr (factsModel vars facts) e = true := by
  unfold assignConstraint at hsome
  cases hlv : List.lookup n vars with
  | none => simp only [hlv] at hsome; exact Option.noConfusion hsome
  | some srt =>
    cases v with
    | none => simp only [hlv] at hsome; exact Option.noConfusion hsome
    | str a =>
      simp only [hlv] at hsome
      by_cases hs : srt = ZSort.str
      · rw [if_pos hs] at hsome
        injection hsome with he
        rw [← he]
        simp [evalExpr, evalCmp, evalTerm, factsModel, hlf, pyToZ3, valEq]
      · rw [if_neg hs] at hsome; exact Option.noConfusion hsome
    | bool b =>
      simp only [hlv] at hsome
      by_cases hs : srt = ZSort.bool
      · rw [if_pos hs] at hsome
        injection hsome with he
        rw [← he]
        simp [evalExpr, evalCmp, evalTerm, factsModel, hlf, pyToZ3, valEq]
      · rw [if_neg hs] at hsome; exact Option.noConfusion hsome
    | int k =>
      simp only [hlv] at hsome
      by_cases hs : numericSort srt = true
      · rw [if_pos hs] at hsome
        injection hsome with he
        rw [← he]
        simp [evalExpr, evalCmp, evalTerm, factsModel, hlf, pyToZ3, valEq, Z3Val.toQ]
      · rw [if_neg hs] at hsome; exact Option.noConfusion hsome
    | real q =>
      simp only [hlv] at hsome
      by_cases hs : numericSort srt = true
      · rw [if_pos hs] at hsome
        injection hsome with he
        rw [← he]
        simp [evalExpr, evalCmp, evalTerm, factsModel, hlf, pyToZ3, valEq, Z3Val.toQ]
      · rw [if_neg hs] at hsome; exact Option.noConfusion hsome

/-- Over a clean, duplicate-free, well-sorted fact map that pins every
variable of a formula, the asserted constraint set (variable assignments
plus the formula) is satisfiable exactly when the formula evaluates to
true under the facts. -/
theorem satisfiable_assigns_iff (vars : List (String × ZSort)) (facts : Facts)
    (F : ZExpr) (hclean : CleanFacts facts)
    (hnodup : (facts.map Prod.fst).Nodup)
    (hws : WellSorted vars (factsModel vars facts))
    (hfull : ∀ n ∈ exprVars F, ∃ v, List.lookup n facts = some v ∧
      ∃ zv, pyToZ3 v = some zv ∧ List.lookup n vars = some zv.zsort) :
    Satisfiable vars (assignmentConstraints vars facts ++ [F]) ↔
      evalExpr (factsModel vars facts) F = true := by
  constructor
  · rintro ⟨m, hmws, hall⟩
    have hFm : evalExpr m F = true := hall F (List.mem_append_right _ (by simp))
    have hagree : ∀ n ∈ exprVars F, m n = factsModel vars facts n := by
      intro n hn
      obtain ⟨v, hlf, zv, hz, hlv⟩ := hfull n hn
      have hc := assignConstraint_of_sorted vars n hz hlv
      have hmemF : (n, v) ∈ facts := mem_of_lookup hlf
      have hmemEff : (n, v) ∈ effectiveVariables facts := by
        rw [effectiveVariables_of_clean hclean]
        exact hmemF
      have hmemA : (ZExpr.cmp .eq (.var n zv.zsort) (z3Lit zv)) ∈
          assignmentConstraints vars facts :=
        List.mem_filterMap.2 ⟨(n, v), hmemEff, hc⟩
      have he := hall _ (List.mem_append_left _ hmemA)
      have he2 : evalCmp CmpOp.eq (evalTerm m (Term.var n zv.zsort))
          (evalTerm m (z3Lit zv)) = true := he
      rw [evalTerm_z3Lit] at he2
      have hval : valEq (m n) zv = true := he2
      have hsort : (m n).zsort = zv.zsort := hmws _ (mem_of_lookup hlv)
      rw [valEq_eq_of_zsort_eq hsort hval,
          factsModel_lookup vars facts n hlf hz]
    rw [← evalExpr_congr m (factsModel vars facts) F hagree]
    exact hFm
  · intro hF
    refine ⟨factsModel vars facts, hws, ?_⟩
    intro e he
    rcases List.mem_append.1 he with hA | hF2
    · obtain ⟨⟨n, v⟩, hmemEff, hsome⟩ := List.mem_filterMap.1 hA
      have hmem : (n, v) ∈ facts := by
        rw [effectiveVariables_of_clean hclean] at hmemEff
        exact hmemEff
      exact assignConstraint_eval vars facts n v e hsome
        (lookup_of_mem_nodup hnodup hmem)
    · rw [List.mem_singleton.1 hF2]
      exact hF

/-- C3: the compiler stores the parsed condition itself as an
invalid-conclusion rule's formula (no pre-negation), and consequently,
under a full well-typed assignment and a sound-and-complete solver answer
on the rule's query, the rule loop classifies the rule as violated (`fail`)
exactly when its condition evaluates to true under the facts. -/
theorem invalid_rule_not_prenegated_and_violated_iff
    (vars : List (String × ZSort)) (facts : Facts) (r : PolicyRule)
    (cr : CompiledRule) (s : Oracle)
    (hcomp : compileRule vars r = .ok cr)
    (hconc : r.conclusion = "invalid")
    (hclean : CleanFacts facts)
    (hnodup : (facts.map Prod.fst).Nodup)
    (hws : WellSorted vars (factsModel vars facts))
    (hfull : ∀ n ∈ exprVars cr.formula, ∃ v, List.lookup n facts = some v ∧
      ∃ zv, pyToZ3 v = some zv ∧ List.lookup n vars = some zv.zsort)
    (hso : Satisfiable vars (ruleQuery [] (assignmentConstraints vars facts) cr) →
      s (ruleQuery [] (assignmentConstraints vars facts) cr) = .sat)
    (hsc : ¬ Satisfiable vars (ruleQuery [] (assignmentConstraints vars facts) cr) →
      s (ruleQuery [] (assignmentConstraints vars facts) cr) = .unsat) :
    parseConditionStr vars r.condition = .ok cr.formula ∧
    cr.conclusion = "invalid" ∧
    (evalRule s [] (assignmentConstraints vars facts) (skippedVariables facts) cr =
        .ok (some { rule_id := cr.id, status := .fail, description := cr.description,
                    reason := "Rule condition satisfied and indicates invalidity" },
             [ruleQuery [] (assignmentConstraints vars facts) cr]) ↔
      evalExpr (factsModel vars facts) cr.formula = true) := by
  obtain ⟨hparse, hcrc⟩ : parseConditionStr vars r.condition = .ok cr.formula ∧
      cr.conclusion = r.conclusion := by
    unfold compileRule at hcomp
    cases hp : parseConditionStr vars r.condition with
    | error e => rw [hp] at hcomp; exact Except.noConfusion hcomp
    | ok f =>
      simp only [hp] at hcomp
      rw [if_pos (Or.inr hconc)] at hcomp
      injection hcomp with hcomp
      rw [← hcomp]
      exact ⟨rfl, rfl⟩
  refine ⟨hparse, hcrc.trans hconc, ?_⟩
  have hquery : ruleQuery [] (assignmentConstraints vars facts) cr =
      assignmentConstraints vars facts ++ [cr.formula] := by
    unfold ruleQuery
    rw [List.nil_append]
  have hsat := satisfiable_assigns_iff vars facts cr.formula hclean hnodup hws hfull
  have hdep : ruleDependsOnVariables cr (skippedVariables facts) = false := by
    rw [skippedVariables_of_clean hclean]
    rfl
  rw [skippedVariables_of_clean hclean] at hdep ⊢
  cases hev : evalExpr (factsModel vars facts) cr.formula with
  | true =>
    have hsq : s (ruleQuery [] (assignmentConstraints vars facts) cr) = .sat := by
      apply hso
      rw [hquery, hsat]
      exact hev
    constructor
    · intro _; rfl
    · intro _
      unfold evalRule
      rw [hdep, hsq, hcrc.trans hconc]
      rfl
  | false =>
    have hsq : s (ruleQuery [] (assignmentConstraints vars facts) cr) = .unsat := by
      apply hsc
      rw [hquery, hsat, hev]
      exact Bool.false_ne_true
    constructor
    · intro heq
      unfold evalRule at heq
      rw [hdep, hsq] at heq
      have heq2 : (Except.ok
          (some ({ rule_id := cr.id, status := RuleStatus.not_applicable,
                   description := cr.description,
                   reason := "Rule condition not satisfied, rule does not apply" } :
              RuleResult),
           [ruleQuery [] (assignmentConstraints vars facts) cr]) :
            Except String (Option RuleResult × List (List ZExpr))) =
          Except.ok
          (some { rule_id := cr.id, status := RuleStatus.fail,
                  description := cr.description,
                  reason := "Rule condition satisfied and indicates invalidity" },
           [ruleQuery [] (assignmentConstraints vars facts) cr]) := heq
      exact absurd heq2 (by simp)
    · intro hev2
      exact absurd hev2 Bool.false_ne_true

/-- Witness for C3: the single-variable rule `x < 14` with conclusion
`invalid` under the assignment `x = 5` and the `sat`-answering solver. -/
theorem invalid_rule_not_prenegated_witness :
    compileRule [("x", .int)]
        { id := "r", condition := "x < 14", conclusion := "invalid",
          description := "d" } =
      .ok { id := "r", formula := .cmp .lt (.var "x" .int) (.intLit 14),
            conclusion := "invalid", description := "d",
            original_rule := { id := "r", condition := "x < 14",
                               conclusion := "invalid", description := "d" } } ∧
    parseConditionStr [("x", .int)] "x < 14" =
      .ok (.cmp .lt (.var "x" .int) (.intLit 14)) ∧
    (evalRule (fun _ => SolverAnswer.sat) []
        (assignmentConstraints [("x", .int)] [("x", .int 5)])
        (skippedVariables [("x", .int 5)])
        { id := "r", formula := .cmp .lt (.var "x" .int) (.intLit 14),
          conclusion := "invalid", description := "d",
          original_rule := { id := "r", condition := "x < 14",
                             conclusion := "invalid", description := "d" } } =
      .ok (some { rule_id := "r", status := .fail, description := "d",
                  reason := "Rule condition satisfied and indicates invalidity" },
           [ruleQuery [] (assignmentConstraints [("x", .int)] [("x", .int 5)])
             { id := "r", formula := .cmp .lt (.var "x" .int) (.intLit 14),
               conclusion := "invalid", description := "d",
               original_rule := { id := "r", condition := "x < 14",
                                  conclusion := "invalid", description := "d" } }]) ↔
      evalExpr (factsModel [("x", .int)] [("x", .int 5)])
        (ZExpr.cmp .lt (.var "x" .int) (.intLit 14)) = true) :=
  have hmain := invalid_rule_not_prenegated_and_violated_iff
    [("x", .int)] [("x", .int 5)]
    { id := "r", condition := "x < 14", conclusion := "invalid", description := "d" }
    { id := "r", formula := .cmp .lt (.var "x" .int) (.intLit 14),
      conclusion := "invalid", description := "d",
      original_rule := { id := "r", condition := "x < 14",
                         conclusion := "invalid", description := "d" } }
    (fun _ => SolverAnswer.sat) rfl rfl
    (by intro p hp; rw [List.mem_singleton] at hp; subst hp
        exact ⟨by decide, by decide, by decide⟩)
    (by simp)
    (by unfold WellSorted; decide)
    (by intro n hn
        simp only [exprVars, termVars, List.append_nil, List.mem_singleton] at hn
        subst hn
        exact ⟨.int 5, rfl, .vint 5, rfl, rfl⟩)
    (fun _ => rfl)
    (fun hns => absurd ⟨fun n => Z3Val.vint 5, by unfold WellSorted; decide,
      by decide⟩ hns)
  ⟨rfl, hmain.1, hmain.2.2⟩

/-! ## Claim C4 -/

/-- C4 (failing input): for scenario 5's policy, `_create_z3_variables`
builds the enum domain constraint for `urgency_level`, but `compile_policy`
returns it in no field of the compiled policy (its `constraints` list is
empty), so no verification session asserts it; the domain constraint
together with the out-of-domain assignment `urgency_level == "weird"` is
indeed unsatisfiable, yet the actual constraint list sent to the solver
omits it, and with the solver's (correct) `unsat` answer on the rule query
the run ends in plain `needs_clarification` rather than an error or any
domain-violation surfacing. -/
theorem enum_domain_constraint_dropped :
    (compilePolicy scenario5Policy).map (fun cp => cp.constraints) = .ok [] ∧
    enumDomainConstraints scenario5Policy.vars =
      [.zor [.cmp .eq (.var "urgency_level" .str) (.strLit "low"),
             .cmp .eq (.var "urgency_level" .str) (.strLit "high")]] ∧
    ¬ Satisfiable (policyZ3Vars scenario5Policy.vars)
        (enumDomainConstraints scenario5Policy.vars ++
         assignmentConstraints (policyZ3Vars scenario5Policy.vars) scenario5Facts) ∧
    ¬ Satisfiable (policyZ3Vars scenario5Policy.vars)
        (assignmentConstraints (policyZ3Vars scenario5Policy.vars) scenario5Facts ++
         [.cmp .eq (.var "urgency_level" .str) (.strLit "high")]) ∧
    (compileAndVerify (fun _ => SolverAnswer.unsat) scenario5Policy scenario5Facts).result
      = .needs_clarification := by
  refine ⟨rfl, rfl, ?_, ?_, rfl⟩
  · rintro ⟨m, -, hall⟩
    have hd : evalExpr m (.zor [.cmp .eq (.var "urgency_level" .str) (.strLit "low"),
        .cmp .eq (.var "urgency_level" .str) (.strLit "high")]) = true := by
      apply hall; decide
    have ha : evalExpr m (.cmp .eq (.var "urgency_level" .str) (.strLit "weird")) = true := by
      apply hall; decide
    cases hmu : m "urgency_level" <;>
      simp [evalExpr, evalExprAny, evalCmp, evalTerm, valEq, Z3Val.toQ, hmu] at hd ha
    exact absurd hd (by simp [ha])
  · rintro ⟨m, -, hall⟩
    have hh : evalExpr m (.cmp .eq (.var "urgency_level" .str) (.strLit "high")) = true := by
      apply hall; decide
    have ha : evalExpr m (.cmp .eq (.var "urgency_level" .str) (.strLit "weird")) = true := by
      apply hall; decide
    cases hmu : m "urgency_level" <;>
      simp [evalExpr, evalCmp, evalTerm, valEq, Z3Val.toQ, hmu] at hh ha
    exact absurd hh (by simp [ha])

/-! ## Claim C8 -/

/-- C8: a solver sort-mismatch error while asserting one rule's formula
never aborts the verification: the error is caught, that single rule is
classified `skipped` with the error recorded in its reason, and the loop
continues with the remaining rules, returning normally (`Except.ok`, not a
propagated failure). -/
theorem sort_mismatch_skips_single_rule (s : Oracle)
    (constraints assigns : List ZExpr) (skippedVars : List String)
    (cr : CompiledRule) (rest : List CompiledRule) (m : String)
    (results : List RuleResult) (qs : List (List ZExpr))
    (hdep : ruleDependsOnVariables cr skippedVars = false)
    (herr : s (ruleQuery constraints assigns cr) = .err m)
    (hmsg : containsSub "sort mismatch".data (toLowerChars m.data) = true)
    (hrest : evalRules s constraints assigns skippedVars rest = .ok (results, qs)) :
    evalRules s constraints assigns skippedVars (cr :: rest) =
      .ok ({ rule_id := cr.id, status := .skipped, description := cr.description,
             reason := "Rule skipped due to Z3 constraint error: " ++ m } :: results,
           ruleQuery constraints assigns cr :: qs) := by
  unfold evalRules evalRule
  rw [hdep, herr]
  simp only [hmsg, if_true]
  rw [hrest]
  rfl

/-- Witness for C8: a two-rule list where the first rule's query raises a
sort mismatch and the second still evaluates to `pass`. -/
theorem sort_mismatch_skips_single_rule_witness :
    (ruleDependsOnVariables
        { id := "r1", formula := .cmp .eq (.var "x" .int) (.intLit 1),
          conclusion := "invalid", description := "d1",
          original_rule := { id := "r1", condition := "x == 1",
                             conclusion := "invalid", description := "d1" } } [] = false) ∧
    evalRules
      (fun q => if q = [ZExpr.cmp .eq (.var "x" .int) (.intLit 1)] then
          .err "Z3Exception: Sort mismatch at argument" else .sat)
      [] [] []
      [{ id := "r1", formula := .cmp .eq (.var "x" .int) (.intLit 1),
         conclusion := "invalid", description := "d1",
         original_rule := { id := "r1", condition := "x == 1",
                            conclusion := "invalid", description := "d1" } },
       { id := "r2", formula := .cmp .eq (.var "y" .int) (.intLit 2),
         conclusion := "valid", description := "d2",
         original_rule := { id := "r2", condition := "y == 2",
                            conclusion := "valid", description := "d2" } }] =
      .ok ([{ rule_id := "r1", status := .skipped, description := "d1",
              reason := "Rule skipped due to Z3 constraint error: " ++
                "Z3Exception: Sort mismatch at argument" },
            { rule_id := "r2", status := .pass, description := "d2",
              reason := "Rule condition satisfied and supports validity" }],
           [[ZExpr.cmp .eq (.var "x" .int) (.intLit 1)],
            [ZExpr.cmp .eq (.var "y" .int) (.intLit 2)]]) :=
  ⟨rfl,
   sort_mismatch_skips_single_rule _ [] [] []
     { id := "r1", formula := .cmp .eq (.var "x" .int) (.intLit 1),
       conclusion := "invalid", description := "d1",
       original_rule := { id := "r1", condition := "x == 1",
                          conclusion := "invalid", description := "d1" } }
     [{ id := "r2", formula := .cmp .eq (.var "y" .int) (.intLit 2),
        conclusion := "valid", description := "d2",
        original_rule := { id := "r2", condition := "y == 2",
                           conclusion := "valid", description := "d2" } }]
     "Z3Exception: Sort mismatch at argument" _ _ rfl (by decide) (by decide) rfl⟩

/-! ## Claim C6 -/

/-- A whole-word match inside `t` survives appending text that starts with
a non-word character (the `" " + description` suffix of the searched rule
text). -/
theorem wordSearch_append (name t u : List Char) (hu : wordOpt u.head? = false)
    (h : wordSearch name t = true) : wordSearch name (t ++ u) = true := by
  unfold wordSearch at h ⊢
  obtain ⟨i, hi, hm⟩ := List.any_eq_true.1 h
  unfold matchesWordAt at hm
  obtain ⟨⟨hc1, hc2⟩, hc3⟩ : ((List.take name.length (List.drop i t) = name) ∧
      (wordBoundary (List.take i t).getLast? name.head? = true)) ∧
      (wordBoundary name.getLast? (List.drop (i + name.length) t).head? = true) := by
    have hm1 := hm
    rw [Bool.and_eq_true, Bool.and_eq_true] at hm1
    exact ⟨⟨by simpa using hm1.1.1, hm1.1.2⟩, hm1.2⟩
  have hit : i ≤ t.length := Nat.lt_succ_iff.1 (List.mem_range.1 hi)
  have hlen : name.length ≤ (List.drop i t).length := by
    have := congrArg List.length hc1
    rw [List.length_take] at this
    omega
  have hilen : i + name.length ≤ t.length := by
    rw [List.length_drop] at hlen
    omega
  apply List.any_eq_true.2
  refine ⟨i, List.mem_range.2 ?_, ?_⟩
  · have : t.length ≤ (t ++ u).length := by simp
    omega
  unfold matchesWordAt
  rw [Bool.and_eq_true, Bool.and_eq_true]
  refine ⟨⟨?_, ?_⟩, ?_⟩
  · rw [List.drop_append_of_le_length hit, List.take_append_of_le_length hlen]
    simpa using hc1
  · rw [List.take_append_of_le_length hit]
    exact hc2
  · rw [List.drop_append_of_le_length hilen, List.head?_append, List.head?_drop]
    rw [List.head?_drop] at hc3
    cases hg : t[i + name.length]? with
    | none =>
      rw [hg] at hc3
      have h1 : wordOpt name.getLast? = true := by
        simpa [wordBoundary, wordOpt] using hc3
      simp [Option.or, wordBoundary, hu, h1]
    | some c =>
      rw [hg] at hc3
      simpa [Option.or] using hc3

/-- If a skipped variable occurs as a whole word in a rule's original
condition, the verification-time dependency check fires. -/
theorem dependsOn_of_referenced (cr : CompiledRule) (skippedVars : List String)
    (x : String) (hx : x ∈ skippedVars)
    (hw : wordSearch x.data cr.original_rule.condition.data = true) :
    ruleDependsOnVariables cr skippedVars = true := by
  unfold ruleDependsOnVariables
  have hne : skippedVars.isEmpty = false :=
    List.isEmpty_eq_false.2 (List.ne_nil_of_mem hx)
  rw [hne]
  simp only [Bool.false_eq_true, if_false]
  apply List.any_eq_true.2
  refine ⟨x, hx, ?_⟩
  exact wordSearch_append x.data cr.original_rule.condition.data
    (' ' :: cr.original_rule.description.data) (by simp [wordOpt, isWordChar]) hw

/-- A rule-result entry produced by `evalRule` for a rule of the list is
among the results of a completed rule loop. -/
theorem evalRules_mem (s : Oracle) (c a : List ZExpr) (sv : List String)
    (cr : CompiledRule) (r : RuleResult) (qs1 : List (List ZExpr)) :
    ∀ (rules : List CompiledRule) (results : List RuleResult)
      (qs : List (List ZExpr)), cr ∈ rules →
      evalRule s c a sv cr = .ok (some r, qs1) →
      evalRules s c a sv rules = .ok (results, qs) → r ∈ results
  | [], _, _, hcr, _, _ => absurd hcr (List.not_mem_nil cr)
  | hd :: tl, results, qs, hcr, h1, h2 => by
    unfold evalRules at h2
    rcases List.mem_cons.1 hcr with heq | htl
    · subst heq
      rw [h1] at h2
      cases htl2 : evalRules s c a sv tl with
      | error e => rw [htl2] at h2; exact Except.noConfusion h2
      | ok p =>
        cases p with
        | mk rs qss =>
          rw [htl2] at h2
          injection h2 with h2
          have : results = r :: rs := by
            have := congrArg Prod.fst h2
            simpa using this.symm
          rw [this]
          exact List.mem_cons_self r rs
    · cases hh : evalRule s c a sv hd with
      | error e => rw [hh] at h2; exact Except.noConfusion h2
      | ok p =>
        cases p with
        | mk ro qo =>
          rw [hh] at h2
          cases htl2 : evalRules s c a sv tl with
          | error e => rw [htl2] at h2; exact Except.noConfusion h2
          | ok p2 =>
            cases p2 with
            | mk rs qss =>
              rw [htl2] at h2
              injection h2 with h2
              have hres : results = ro.toList ++ rs := by
                have := congrArg Prod.fst h2
                simpa using this.symm
              rw [hres]
              exact List.mem_append_right _
                (evalRules_mem s c a sv cr r qs1 tl rs qss htl h1 htl2)

/-- C6: in every verification run, a rule whose referenced variables (the
declared names occurring as whole words in its raw condition) meet the
skipped set is classified `skipped` by the rule loop — so never violated,
supporting or not-applicable — the solver is not queried for it, and when
the loop completes its `skipped` entry is among the reported rule results. -/
theorem skipped_variable_skips_rule (s : Oracle) (extracted : Facts)
    (policy : Policy) (cp : CompiledPolicy) (cr : CompiledRule) (x : String)
    (_hcp : compilePolicy policy = .ok cp)
    (hcr : cr ∈ cp.rules)
    (hx : x ∈ skippedVariables extracted)
    (href : x ∈ referencedVariables (cp.vars.map Prod.fst) cr) :
    evalRule s cp.constraints (assignmentConstraints cp.vars extracted)
        (skippedVariables extracted) cr =
      .ok (some { rule_id := cr.id, status := .skipped, description := cr.description,
                  reason := "Rule skipped due to unknown optional variables: " ++
                    String.intercalate ", " (skippedVariables extracted) }, []) ∧
    (∀ results qs,
      evalRules s cp.constraints (assignmentConstraints cp.vars extracted)
        (skippedVariables extracted) cp.rules = .ok (results, qs) →
      ({ rule_id := cr.id, status := .skipped, description := cr.description,
         reason := "Rule skipped due to unknown optional variables: " ++
           String.intercalate ", " (skippedVariables extracted) } : RuleResult)
        ∈ results) := by
  have hw : wordSearch x.data cr.original_rule.condition.data = true :=
    (List.mem_filter.1 href).2
  have hdep : ruleDependsOnVariables cr (skippedVariables extracted) = true :=
    dependsOn_of_referenced cr (skippedVariables extracted) x hx hw
  have h1 : evalRule s cp.constraints (assignmentConstraints cp.vars extracted)
      (skippedVariables extracted) cr =
      .ok (some { rule_id := cr.id, status := .skipped, description := cr.description,
                  reason := "Rule skipped due to unknown optional variables: " ++
                    String.intercalate ", " (skippedVariables extracted) }, []) := by
    unfold evalRule
    rw [hdep]
    rfl
  exact ⟨h1, fun results qs h2 =>
    evalRules_mem s cp.constraints (assignmentConstraints cp.vars extracted)
      (skippedVariables extracted) cr _ [] cp.rules results qs hcr h1 h2⟩

/-- Witness for C6: `skipPolicy` with its optional variable `x` skipped. -/
theorem skipped_variable_skips_rule_witness :
    compilePolicy skipPolicy = .ok skipCompiled ∧
    "x" ∈ skippedVariables [("x", SKIP_RULE)] ∧
    "x" ∈ referencedVariables (skipCompiled.vars.map Prod.fst)
      (skipCompiled.rules.get ⟨0, by decide⟩) ∧
    evalRule (fun _ => SolverAnswer.sat) skipCompiled.constraints
        (assignmentConstraints skipCompiled.vars [("x", SKIP_RULE)])
        (skippedVariables [("x", SKIP_RULE)]) (skipCompiled.rules.get ⟨0, by decide⟩) =
      .ok (some { rule_id := "backup_rule", status := .skipped,
                  description := "x must not be one",
                  reason := "Rule skipped due to unknown optional variables: x" }, []) :=
  ⟨rfl, by decide, by decide,
   (skipped_variable_skips_rule (fun _ => SolverAnswer.sat) [("x", SKIP_RULE)]
     skipPolicy skipCompiled (skipCompiled.rules.get ⟨0, by decide⟩) "x"
     rfl (by decide) (by decide) (by decide)).1⟩

/-! ## Claim C7 -/

/-- The list of ids of failed rules is empty exactly when no rule result
is classified `fail` (bridge between the source's accumulated
`violated_rules` list and the statuses reported in `rule_results`). -/
theorem isEmpty_filtered_ids (l : List RuleResult) (P : RuleResult → Bool)
    (f : RuleResult → String) :
    ((l.filter P).map f).isEmpty = !(l.any P) := by
  induction l with
  | nil => simp
  | cons a l ih =>
    by_cases h : P a <;> simp [h, ih]

/-- The aggregated result equals the spec's aggregation precedence applied
to the effective variables and the reported rule results. -/
theorem aggOutput_result_eq_spec (effective : Facts) (results : List RuleResult)
    (qs : List (List ZExpr)) :
    (aggOutput effective results qs).result = specAggregate effective results := by
  show (if effective.isEmpty then VResult.needs_clarification
      else if (((results.filter (fun r => r.status = RuleStatus.fail)).map
          (fun r => r.rule_id)).isEmpty = false) then VResult.invalid
      else if results.any (fun r => r.status = RuleStatus.pass) then VResult.valid
      else if results.any (fun r => r.status = RuleStatus.skipped) then VResult.valid
      else VResult.needs_clarification) = specAggregate effective results
  rw [isEmpty_filtered_ids]
  unfold specAggregate
  cases hf : results.any (fun r => decide (r.status = RuleStatus.fail)) <;> simp [hf]

/-- C7: for every run that passes the mandatory gate, compiles, and whose
rule loop completes, the overall result equals the spec's aggregation
precedence applied to the effective variables and the reported rule
results: empty effective set → needs clarification; else any failed rule →
invalid; else any passing rule → valid; else any skipped rule → valid;
else needs clarification. -/
theorem aggregation_follows_precedence (s : Oracle) (extracted : Facts)
    (policy : Policy) (cp : CompiledPolicy)
    (results : List RuleResult) (qs : List (List ZExpr))
    (hgate : missingMandatory extracted = [])
    (hcp : compilePolicy policy = .ok cp)
    (heval : evalRules s cp.constraints (assignmentConstraints cp.vars extracted)
        (skippedVariables extracted) cp.rules = .ok (results, qs)) :
    (verifyScenario s extracted policy).result =
      specAggregate (effectiveVariables extracted)
        (verifyScenario s extracted policy).rule_results := by
  unfold verifyScenario
  rw [if_neg (fun hc => hc hgate), hcp]
  show (verifyWithCompiled s extracted cp).result =
    specAggregate (effectiveVariables extracted)
      (verifyWithCompiled s extracted cp).rule_results
  unfold verifyWithCompiled
  rw [heval]
  exact aggOutput_result_eq_spec (effectiveVariables extracted) results qs

/-- Witness for C7 at scenario 1 with the `sat`-answering solver. -/
theorem aggregation_follows_precedence_witness :
    missingMandatory scenario1Facts = [] ∧
    compilePolicy scenario1Policy = .ok scenario1Compiled ∧
    (verifyScenario (fun _ => SolverAnswer.sat) scenario1Facts scenario1Policy).result =
      specAggregate (effectiveVariables scenario1Facts)
        (verifyScenario (fun _ => SolverAnswer.sat) scenario1Facts scenario1Policy).rule_results :=
  ⟨rfl, rfl,
   aggregation_follows_precedence (fun _ => SolverAnswer.sat) scenario1Facts
     scenario1Policy scenario1Compiled
     [{ rule_id := "advance_notice_rule", status := .fail,
        description := "Regular vacation needs 2+ weeks advance notice",
        reason := "Rule condition satisfied and indicates invalidity" }]
     [scenario1Query] rfl rfl rfl⟩

/-! ## Claim C9 -/

/-- A compiled policy's variable map is the one built from the policy's
declarations. -/
theorem compilePolicy_vars {policy : Policy} {cp : CompiledPolicy}
    (h : compilePolicy policy = .ok cp) : cp.vars = policyZ3Vars policy.vars := by
  unfold compilePolicy at h
  cases h1 : policy.rules.mapM (compileRule (policyZ3Vars policy.vars)) with
  | error e => rw [h1] at h; exact Except.noConfusion h
  | ok rules =>
    rw [h1] at h
    cases h2 : policy.constraints.mapM (parseConditionStr (policyZ3Vars policy.vars)) with
    | error e => rw [h2] at h; exact Except.noConfusion h
    | ok cs =>
      rw [h2] at h
      injection h with h
      rw [← h]

/-- Appending an entry whose value is not the missing marker leaves the
missing list unchanged. -/
theorem missingMandatory_append (facts : Facts) (k : String) (w : PyVal)
    (h : w ≠ MISSING_MANDATORY) :
    missingMandatory (facts ++ [(k, w)]) = missingMandatory facts := by
  simp [missingMandatory, List.filter_append, h]

/-- Appending an entry whose value is not the skip marker leaves the
skipped list unchanged. -/
theorem skippedVariables_append (facts : Facts) (k : String) (w : PyVal)
    (h : w ≠ SKIP_RULE) :
    skippedVariables (facts ++ [(k, w)]) = skippedVariables facts := by
  simp [skippedVariables, List.filter_append, h]

/-- Appending a real (non-marker, non-null) value extends the effective
variables by exactly that entry. -/
theorem effectiveVariables_append_keep (facts : Facts) (k : String) (w : PyVal)
    (h1 : w ≠ SKIP_RULE) (h2 : w ≠ MISSING_MANDATORY) (h3 : w ≠ PyVal.none) :
    effectiveVariables (facts ++ [(k, w)]) = effectiveVariables facts ++ [(k, w)] := by
  simp [effectiveVariables, List.filter_append, h1, h2, h3]

/-- Appending an explicit `None` leaves the effective variables unchanged. -/
theorem effectiveVariables_append_none (facts : Facts) (k : String) :
    effectiveVariables (facts ++ [(k, PyVal.none)]) = effectiveVariables facts := by
  simp [effectiveVariables, List.filter_append]

/-- Appending an entry for an undeclared name (or with an inassertable
value) leaves the asserted equality constraints unchanged. -/
theorem assignmentConstraints_append_undeclared (vars : List (String × ZSort))
    (facts : Facts) (k : String) (w : PyVal)
    (h1 : w ≠ SKIP_RULE) (h2 : w ≠ MISSING_MANDATORY) (h3 : w ≠ PyVal.none)
    (hdecl : List.lookup k vars = Option.none) :
    assignmentConstraints vars (facts ++ [(k, w)]) = assignmentConstraints vars facts := by
  unfold assignmentConstraints
  rw [effectiveVariables_append_keep facts k w h1 h2 h3]
  simp [List.filterMap_append, assignConstraint, hdecl]

/-- Two fact maps with the same missing list, skipped list, asserted
constraints and effective-emptiness produce identical `verify_scenario`
outputs on every policy and solver. -/
theorem verifyScenario_congr (s : Oracle) (policy : Policy) (f1 f2 : Facts)
    (h1 : missingMandatory f1 = missingMandatory f2)
    (h2 : skippedVariables f1 = skippedVariables f2)
    (h3 : assignmentConstraints (policyZ3Vars policy.vars) f1 =
          assignmentConstraints (policyZ3Vars policy.vars) f2)
    (h4 : (effectiveVariables f1).isEmpty = (effectiveVariables f2).isEmpty) :
    verifyScenario s f1 policy = verifyScenario s f2 policy := by
  unfold verifyScenario
  rw [h1]
  by_cases hg : missingMandatory f2 ≠ []
  · rw [if_pos hg, if_pos hg]
    unfold gateOutput
    rw [h1]
  · rw [if_neg hg, if_neg hg]
    cases hcp : compilePolicy policy with
    | error e => rfl
    | ok cp =>
      have hv : cp.vars = policyZ3Vars policy.vars := compilePolicy_vars hcp
      show verifyWithCompiled s f1 cp = verifyWithCompiled s f2 cp
      unfold verifyWithCompiled
      rw [h2, hv, h3]
      cases evalRules s cp.constraints
          (assignmentConstraints (policyZ3Vars policy.vars) f2)
          (skippedVariables f2) cp.rules with
      | error e => rfl
      | ok p =>
        cases p with
        | mk results qs =>
          show aggOutput (effectiveVariables f1) results qs =
            aggOutput (effectiveVariables f2) results qs
          unfold aggOutput
          rw [h4]

/-- Like `verifyScenario_congr` but without the emptiness hypothesis: the
reported rule results, violated ids and solver queries still agree (only
the aggregated status can differ). -/
theorem verifyScenario_components_congr (s : Oracle) (policy : Policy)
    (f1 f2 : Facts)
    (h1 : missingMandatory f1 = missingMandatory f2)
    (h2 : skippedVariables f1 = skippedVariables f2)
    (h3 : assignmentConstraints (policyZ3Vars policy.vars) f1 =
          assignmentConstraints (policyZ3Vars policy.vars) f2) :
    (verifyScenario s f1 policy).rule_results =
      (verifyScenario s f2 policy).rule_results ∧
    (verifyScenario s f1 policy).failed_rules =
      (verifyScenario s f2 policy).failed_rules ∧
    (verifyScenario s f1 policy).queries = (verifyScenario s f2 policy).queries := by
  unfold verifyScenario
  rw [h1]
  by_cases hg : missingMandatory f2 ≠ []
  · rw [if_pos hg, if_pos hg]
    exact ⟨rfl, rfl, rfl⟩
  · rw [if_neg hg, if_neg hg]
    cases hcp : compilePolicy policy with
    | error e => exact ⟨rfl, rfl, rfl⟩
    | ok cp =>
      have hv : cp.vars = policyZ3Vars policy.vars := compilePolicy_vars hcp
      have hw1 : verifyReconstructed s f1 (Except.ok cp) = verifyWithCompiled s f1 cp := rfl
      have hw2 : verifyReconstructed s f2 (Except.ok cp) = verifyWithCompiled s f2 cp := rfl
      rw [hw1, hw2]
      unfold verifyWithCompiled
      rw [h2, hv, h3]
      cases evalRules s cp.constraints
          (assignmentConstraints (policyZ3Vars policy.vars) f2)
          (skippedVariables f2) cp.rules with
      | error e => exact ⟨rfl, rfl, rfl⟩
      | ok p =>
        cases p with
        | mk results qs => exact ⟨rfl, rfl, rfl⟩

/-- C9 (amended): a key not declared among the policy's symbols, bound to
any non-marker, non-null value, is ignored by rule evaluation — both runs
report the same per-rule classifications, violated rule ids and solver
queries, and when the original map already has at least one effective
variable the whole output (status included) is unchanged; an explicit
`None` under any key is treated identically to an absent key. Only the
overall status of a run whose original effective set was empty can change
(see the counterexample). -/
theorem unknown_keys_ignored (s : Oracle) (facts : Facts) (policy : Policy)
    (stray : String) (v : PyVal)
    (hdecl : List.lookup stray (policyZ3Vars policy.vars) = Option.none)
    (hv1 : v ≠ MISSING_MANDATORY) (hv2 : v ≠ SKIP_RULE) (hv3 : v ≠ PyVal.none) :
    ((verifyScenario s (facts ++ [(stray, v)]) policy).rule_results =
      (verifyScenario s facts policy).rule_results ∧
     (verifyScenario s (facts ++ [(stray, v)]) policy).failed_rules =
      (verifyScenario s facts policy).failed_rules ∧
     (verifyScenario s (facts ++ [(stray, v)]) policy).queries =
      (verifyScenario s facts policy).queries) ∧
    (effectiveVariables facts ≠ [] →
      verifyScenario s (facts ++ [(stray, v)]) policy = verifyScenario s facts policy) ∧
    (∀ name, verifyScenario s (facts ++ [(name, PyVal.none)]) policy =
      verifyScenario s facts policy) := by
  have hm := missingMandatory_append facts stray v hv1
  have hs := skippedVariables_append facts stray v hv2
  have ha := assignmentConstraints_append_undeclared (policyZ3Vars policy.vars)
    facts stray v hv2 hv1 hv3 hdecl
  refine ⟨verifyScenario_components_congr s policy _ _ hm hs ha, ?_, ?_⟩
  · intro hne
    apply verifyScenario_congr s policy _ _ hm hs ha
    rw [effectiveVariables_append_keep facts stray v hv2 hv1 hv3]
    cases he : effectiveVariables facts with
    | nil => exact absurd he hne
    | cons a l => rfl
  · intro name
    apply verifyScenario_congr s policy
    · exact missingMandatory_append facts name PyVal.none (by decide)
    · exact skippedVariables_append facts name PyVal.none (by decide)
    · unfold assignmentConstraints
      rw [effectiveVariables_append_none]
    · rw [effectiveVariables_append_none]

/-- Witness for C9 (amended): scenario 1's facts extended with the
undeclared key `zzz`. -/
theorem unknown_keys_ignored_witness :
    List.lookup "zzz" (policyZ3Vars scenario1Policy.vars) = Option.none ∧
    effectiveVariables scenario1Facts ≠ [] ∧
    verifyScenario (fun _ => SolverAnswer.sat)
        (scenario1Facts ++ [("zzz", .int 1)]) scenario1Policy =
      verifyScenario (fun _ => SolverAnswer.sat) scenario1Facts scenario1Policy :=
  ⟨rfl, by decide,
   (unknown_keys_ignored (fun _ => SolverAnswer.sat) scenario1Facts scenario1Policy
     "zzz" (.int 1) rfl (by decide) (by decide) (by decide)).2.1 (by decide)⟩

/-- C9 (counterexample): adding the undeclared key `zzz` (with the real
value `1`) to the fact map `{x: SKIP_RULE}` changes the overall status of
`verify_scenario` from `needs_clarification` to `valid` on `skipPolicy`,
so an unknown key is not fully ignored. -/
theorem unknown_key_changes_status :
    (verifyScenario (fun _ => SolverAnswer.sat) [("x", SKIP_RULE)] skipPolicy).result
      = .needs_clarification ∧
    (verifyScenario (fun _ => SolverAnswer.sat)
        [("x", SKIP_RULE), ("zzz", .int 1)] skipPolicy).result = .valid ∧
    (verifyScenario (fun _ => SolverAnswer.sat) [("x", SKIP_RULE)] skipPolicy).result ≠
    (verifyScenario (fun _ => SolverAnswer.sat)
        [("x", SKIP_RULE), ("zzz", .int 1)] skipPolicy).result :=
  ⟨rfl, rfl, by decide⟩

/-! ## Claim C10 -/

/-- C10: a declared variable whose declaration omits `is_mandatory` is
treated as mandatory by the resolver: if it is not extracted (absent key or
explicit null) and has no default value, it resolves to the
`MISSING_MANDATORY` marker, never to `SKIP_RULE`. -/
theorem omitted_is_mandatory_treated_as_mandatory (extracted : Facts)
    (pv : PolicyVar) (h1 : pv.is_mandatory = Option.none)
    (h2 : pv.default_value = Option.none)
    (h3 : List.lookup pv.name extracted = Option.none ∨
          List.lookup pv.name extracted = some PyVal.none) :
    resolveVar extracted pv = (pv.name, MISSING_MANDATORY) ∧
    resolveVar extracted pv ≠ (pv.name, SKIP_RULE) := by
  have hr : resolveVar extracted pv = (pv.name, MISSING_MANDATORY) := by
    unfold resolveVar
    rcases h3 with h3 | h3 <;> simp [h1, h2, h3]
  refine ⟨hr, ?_⟩
  rw [hr]
  simp [MISSING_MANDATORY, SKIP_RULE]

/-- Witness for C10: `has_backup_coverage` declared without `is_mandatory`
and without default, absent from the extraction. -/
theorem omitted_is_mandatory_treated_as_mandatory_witness :
    ({ name := "has_backup_coverage", type := "boolean",
       description := "d" } : PolicyVar).is_mandatory = Option.none ∧
    resolveVar [("other", .int 3)]
        { name := "has_backup_coverage", type := "boolean", description := "d" }
      = ("has_backup_coverage", MISSING_MANDATORY) :=
  ⟨rfl,
   (omitted_is_mandatory_treated_as_mandatory [("other", .int 3)]
     { name := "has_backup_coverage", type := "boolean", description := "d" }
     rfl rfl (Or.inl (by decide))).1⟩

end Anchor
